import Mathlib

/-!
Verification of the random-value test-support module (`src/rand.rs`) of
`regd-testing` against its specification.

Shallow embedding conventions:
  * A random source is modelled as a stream of raw draws `Nat → Nat`; one
    raw draw feeds one sampling step.  `generate_badfile` acquires a fresh
    source on every loop iteration, so it receives `Nat → Nat → Nat`
    (iteration index → stream).
  * The filesystem (current working directory) is a predicate
    `FsState := String → Bool`: `fs name = true` means an entry with that
    name exists.  `fs::metadata` is a read-only existence query.
  * A Rust `panic!` / failed `assert!` is modelled as `Except.error` with
    the assert's message.
  * The unbounded `loop` of `generate_badfile` is given explicit fuel; an
    inner `none` (`Except.ok none`) means the fuel ran out while the loop
    was still running, which is distinct from the `length == 0` panic.
-/

/-- The byte charset of the rand crate's `Alphanumeric` distribution,
`A-Z` then `a-z` then `0-9`, as characters. -/
def ALPHANUMERIC_CHARSET : List Char :=
  "ABCDEFGHIJKLMNOPQRSTUVWXYZabcdefghijklmnopqrstuvwxyz0123456789".data

/-- One sample of the `Alphanumeric` distribution: a raw draw selects one of
the 62 charset symbols. -/
def sampleAlphanumeric (raw : Nat) : Char :=
  ALPHANUMERIC_CHARSET.getD (raw % 62) 'A'

/-- `generate_bytes(length)`: `(0..length).map(|_| rng.random::<u8>()).collect()`.
Each raw draw is reduced to a byte. -/
def generate_bytes (rng : Nat → Nat) (length : Nat) : List Nat :=
  (List.range length).map (fun i => rng i % 256)

/-- `generate_alphanumeric(length)`:
`rng.sample_iter(&Alphanumeric).take(length).map(char::from).collect()`. -/
def generate_alphanumeric (rng : Nat → Nat) (length : Nat) : String :=
  String.mk ((List.range length).map (fun i => sampleAlphanumeric (rng i)))

/-- A range descriptor as accepted by `generate_range`: Rust's `a..b`
(exclusive) or `a..=b` (inclusive), over integers. -/
inductive SampleRangeI where
  | exclusive (lo hi : Int)
  | inclusive (lo hi : Int)
deriving DecidableEq

/-- Rust's `SampleRange::is_empty`: `a..b` is empty unless `lo < hi`,
`a..=b` is empty unless `lo ≤ hi`. -/
def SampleRangeI.is_empty : SampleRangeI → Bool
  | .exclusive lo hi => !(decide (lo < hi))
  | .inclusive lo hi => !(decide (lo ≤ hi))

/-- Uniform sampling within a non-empty range: the raw draw is reduced
modulo the number of values and offset by the lower bound
(`rng.random_range(range)`). -/
def SampleRangeI.sample (r : SampleRangeI) (raw : Nat) : Int :=
  match r with
  | .exclusive lo hi => lo + (raw % (hi - lo).toNat : Nat)
  | .inclusive lo hi => lo + (raw % ((hi - lo).toNat + 1) : Nat)

/-- `generate_range(range)`: asserts the range is non-empty, then samples
one value from it. -/
def generate_range (raw : Nat) (range : SampleRangeI) : Except String Int :=
  if range.is_empty then Except.error "cannot sample empty range"
  else Except.ok (range.sample raw)

/-- The current working directory: which names exist as filesystem
entries. -/
def FsState : Type := String → Bool

/-- The operations the filesystem collaborator supports.  The source only
ever issues `metadataCheck`. -/
inductive FsOp where
  | metadataCheck (name : String)
  | create (name : String)
  | remove (name : String)
deriving DecidableEq

/-- Whether an operation is a read-only existence query. -/
def FsOp.isMetadataCheck : FsOp → Bool
  | .metadataCheck _ => true
  | _ => false

/-- Effect of one filesystem operation on the directory state: `create`
adds an entry, `remove` deletes it, a metadata query touches nothing. -/
def apply_fs_op (fs : FsState) (op : FsOp) : FsState :=
  match op with
  | .metadataCheck _ => fs
  | .create name => fun s => s == name || fs s
  | .remove name => fun s => if s == name then false else fs s

/-- `fs::metadata(&filename).is_err()`: true exactly when no entry with
that name exists. -/
def metadata_is_err (fs : FsState) (name : String) : Bool :=
  !(fs name)

/-- The retry `loop` of `generate_badfile`: at iteration `k`, acquire a
fresh source `rngs k`, sample a candidate name, return it if the existence
check fails, otherwise resample.  `fuel` bounds the unrolling; `none`
means the loop was still running. -/
def badfile_loop (fs : FsState) (rngs : Nat → Nat → Nat) (length : Nat) :
    Nat → Nat → Option String
  | _, 0 => none
  | k, fuel + 1 =>
    let filename := generate_alphanumeric (rngs k) length
    if metadata_is_err fs filename then some filename
    else badfile_loop fs rngs length (k + 1) fuel

/-- `generate_badfile(length)`: assert `length > 0`
(message "cannot sample empty file name"), then run the retry loop. -/
def generate_badfile (fs : FsState) (rngs : Nat → Nat → Nat)
    (length fuel : Nat) : Except String (Option String) :=
  if length > 0 then Except.ok (badfile_loop fs rngs length 0 fuel)
  else Except.error "cannot sample empty file name"

/-- The retry loop instrumented with the trace of filesystem operations it
issues: one `metadataCheck` per iteration, nothing else. -/
def badfile_loop_ops (fs : FsState) (rngs : Nat → Nat → Nat) (length : Nat) :
    Nat → Nat → Option String × List FsOp
  | _, 0 => (none, [])
  | k, fuel + 1 =>
    let filename := generate_alphanumeric (rngs k) length
    if metadata_is_err fs filename then (some filename, [FsOp.metadataCheck filename])
    else
      let rest := badfile_loop_ops fs rngs length (k + 1) fuel
      (rest.1, FsOp.metadataCheck filename :: rest.2)

/-- Membership test for the 62-symbol alphanumeric alphabet. -/
def isAlphanumChar (c : Char) : Bool :=
  ALPHANUMERIC_CHARSET.contains c

-- Basic facts about the embedding.

theorem ALPHANUMERIC_CHARSET_length : ALPHANUMERIC_CHARSET.length = 62 := by
  decide

theorem sampleAlphanumeric_mem (raw : Nat) :
    sampleAlphanumeric raw ∈ ALPHANUMERIC_CHARSET := by
  have h : raw % 62 < ALPHANUMERIC_CHARSET.length := by
    have h62 : raw % 62 < 62 := Nat.mod_lt _ (by decide)
    simpa [ALPHANUMERIC_CHARSET_length] using h62
  unfold sampleAlphanumeric
  rw [List.getD_eq_getElem _ _ h]
  exact List.getElem_mem h

theorem generate_alphanumeric_length (rng : Nat → Nat) (length : Nat) :
    (generate_alphanumeric rng length).length = length := by
  simp [generate_alphanumeric, String.length]

theorem generate_alphanumeric_chars (rng : Nat → Nat) (length : Nat) :
    ∀ c ∈ (generate_alphanumeric rng length).data, c ∈ ALPHANUMERIC_CHARSET := by
  intro c hc
  simp only [generate_alphanumeric, List.mem_map] at hc
  obtain ⟨i, _, rfl⟩ := hc
  exact sampleAlphanumeric_mem _

theorem ALPHANUMERIC_CHARSET_spec :
    ALPHANUMERIC_CHARSET.all (fun c => c.isUpper || c.isLower || c.isDigit) = true := by
  decide

/-- C5: for every `length ≥ 0`, `generate_bytes(length)` returns exactly
`length` bytes and `generate_alphanumeric(length)` returns a string of
exactly `length` characters; `length == 0` yields an empty
sequence/string, not an error. -/
theorem generate_bytes_alphanumeric_exact_length (rng : Nat → Nat) (length : Nat) :
    (generate_bytes rng length).length = length ∧
    (generate_alphanumeric rng length).length = length ∧
    generate_bytes rng 0 = [] ∧
    generate_alphanumeric rng 0 = "" := by
  refine ⟨?_, generate_alphanumeric_length rng length, ?_, ?_⟩
  · simp [generate_bytes]
  · simp [generate_bytes]
  · rfl

/-- C6: every character of `generate_alphanumeric(length)` belongs to the
62-symbol alphanumeric alphabet, which consists exactly of uppercase
letters, lowercase letters and digits. -/
theorem generate_alphanumeric_alphabet (rng : Nat → Nat) (length : Nat) :
    (generate_alphanumeric rng length).data.all isAlphanumChar = true ∧
    ALPHANUMERIC_CHARSET.length = 62 ∧
    ALPHANUMERIC_CHARSET.all (fun c => c.isUpper || c.isLower || c.isDigit) = true := by
  refine ⟨?_, ALPHANUMERIC_CHARSET_length, ALPHANUMERIC_CHARSET_spec⟩
  rw [List.all_eq_true]
  intro c hc
  have hmem := generate_alphanumeric_chars rng length c hc
  simpa [isAlphanumChar, List.contains, List.elem_iff] using hmem

/-- C2: `generate_range` aborts (panics) exactly when the supplied range
is empty per the range's own emptiness rule; otherwise it returns a
value. -/
theorem generate_range_aborts_iff_empty (raw : Nat) (range : SampleRangeI) :
    ((∃ msg, generate_range raw range = Except.error msg) ↔ range.is_empty = true) ∧
    ((∃ v, generate_range raw range = Except.ok v) ↔ range.is_empty = false) := by
  unfold generate_range
  cases h : range.is_empty <;> simp

/-- C3: for a non-empty range, `generate_range` returns a value inside its
bound: `a ≤ v < b` for `a..b` with `a < b`, and `a ≤ v ≤ b` for `a..=b`
with `a ≤ b`. -/
theorem generate_range_in_bounds (raw : Nat) :
    (∀ a b : Int, a < b →
      ∃ v, generate_range raw (SampleRangeI.exclusive a b) = Except.ok v ∧
        a ≤ v ∧ v < b) ∧
    (∀ a b : Int, a ≤ b →
      ∃ v, generate_range raw (SampleRangeI.inclusive a b) = Except.ok v ∧
        a ≤ v ∧ v ≤ b) := by
  constructor
  · intro a b hab
    have hn : 0 < (b - a).toNat := by omega
    have hmod : raw % (b - a).toNat < (b - a).toNat := Nat.mod_lt _ hn
    refine ⟨SampleRangeI.sample (.exclusive a b) raw, ?_, ?_, ?_⟩
    · simp [generate_range, SampleRangeI.is_empty, hab]
    · simp only [SampleRangeI.sample]
      omega
    · simp only [SampleRangeI.sample]
      omega
  · intro a b hab
    have hmod : raw % ((b - a).toNat + 1) < (b - a).toNat + 1 :=
      Nat.mod_lt _ (Nat.succ_pos _)
    refine ⟨SampleRangeI.sample (.inclusive a b) raw, ?_, ?_, ?_⟩
    · simp [generate_range, SampleRangeI.is_empty, hab]
    · simp only [SampleRangeI.sample]
      omega
    · simp only [SampleRangeI.sample]
      omega

/-- C3 witness: concrete instances of both bound forms. -/
theorem generate_range_in_bounds_witness :
    (∃ v, generate_range 7 (SampleRangeI.exclusive 10 20) = Except.ok v ∧
      (10 : Int) ≤ v ∧ v < 20) ∧
    (∃ v, generate_range 7 (SampleRangeI.inclusive 3 5) = Except.ok v ∧
      (3 : Int) ≤ v ∧ v ≤ 5) :=
  ⟨(generate_range_in_bounds 7).1 10 20 (by decide),
   (generate_range_in_bounds 7).2 3 5 (by decide)⟩

/-- C10: a single-element inclusive range `a..=a` is accepted (not empty)
and `generate_range` returns exactly `a` on it. -/
theorem generate_range_singleton_inclusive (raw : Nat) (a : Int) :
    generate_range raw (SampleRangeI.inclusive a a) = Except.ok a := by
  simp [generate_range, SampleRangeI.is_empty, SampleRangeI.sample]

theorem generate_alphanumeric_all_alphanum (rng : Nat → Nat) (length : Nat) :
    (generate_alphanumeric rng length).data.all isAlphanumChar = true := by
  rw [List.all_eq_true]
  intro c hc
  have hmem := generate_alphanumeric_chars rng length c hc
  simpa [isAlphanumChar, List.contains, List.elem_iff] using hmem

theorem badfile_loop_some (fs : FsState) (rngs : Nat → Nat → Nat) (length : Nat) :
    ∀ fuel k s, badfile_loop fs rngs length k fuel = some s →
      (∃ j, k ≤ j ∧ s = generate_alphanumeric (rngs j) length) ∧
      metadata_is_err fs s = true := by
  intro fuel
  induction fuel with
  | zero =>
    intro k s h
    simp [badfile_loop] at h
  | succ n ih =>
    intro k s h
    simp only [badfile_loop] at h
    split at h
    · cases h
      exact ⟨⟨k, Nat.le_refl k, rfl⟩, by assumption⟩
    · obtain ⟨⟨j, hkj, rfl⟩, hm⟩ := ih (k + 1) s h
      exact ⟨⟨j, by omega, rfl⟩, hm⟩

/-- C1: whenever `generate_badfile(length)` returns a name, that name has
exactly `length` alphanumeric characters and the filesystem existence
check for it fails (no such entry exists) at the moment of return. -/
theorem generate_badfile_ok_spec (fs : FsState) (rngs : Nat → Nat → Nat)
    (length fuel : Nat) (s : String)
    (h : generate_badfile fs rngs length fuel = Except.ok (some s)) :
    s.length = length ∧ metadata_is_err fs s = true ∧ fs s = false ∧
    s.data.all isAlphanumChar = true := by
  unfold generate_badfile at h
  split at h
  · have hloop : badfile_loop fs rngs length 0 fuel = some s := by
      injection h with h
    obtain ⟨⟨j, _, rfl⟩, hm⟩ := badfile_loop_some fs rngs length fuel 0 s hloop
    refine ⟨generate_alphanumeric_length _ _, hm, ?_, generate_alphanumeric_all_alphanum _ _⟩
    simpa [metadata_is_err] using hm
  · exact absurd h (by simp)

/-- C1 witness: a concrete successful call satisfies the contract. -/
theorem generate_badfile_ok_spec_witness :
    (generate_alphanumeric (fun _ => 0) 3).length = 3 ∧
    metadata_is_err (fun _ => false) (generate_alphanumeric (fun _ => 0) 3) = true ∧
    (fun _ => false : FsState) (generate_alphanumeric (fun _ => 0) 3) = false ∧
    (generate_alphanumeric (fun _ => 0) 3).data.all isAlphanumChar = true :=
  generate_badfile_ok_spec (fun _ => false) (fun _ _ => 0) 3 1
    (generate_alphanumeric (fun _ => 0) 3) rfl

/-- C4: `generate_badfile` aborts exactly when `length == 0`, and in that
case the outcome is independent of the random source, the filesystem state
and the loop budget: the rejection happens before any sampling or
filesystem access. -/
theorem generate_badfile_zero_aborts (fs fs2 : FsState)
    (rngs rngs2 : Nat → Nat → Nat) (length fuel fuel2 : Nat) :
    ((∃ msg, generate_badfile fs rngs length fuel = Except.error msg) ↔ length = 0) ∧
    (length = 0 →
      generate_badfile fs rngs length fuel = generate_badfile fs2 rngs2 length fuel2) := by
  constructor
  · constructor
    · rintro ⟨msg, hmsg⟩
      by_contra hlen
      have hpos : length > 0 := Nat.pos_of_ne_zero hlen
      simp [generate_badfile, hpos] at hmsg
    · rintro rfl
      exact ⟨"cannot sample empty file name", rfl⟩
  · rintro rfl
    rfl

/-- C4 witness: at `length = 0` the call aborts identically for two
unrelated filesystem states, random sources and budgets. -/
theorem generate_badfile_zero_aborts_witness :
    generate_badfile (fun _ => true) (fun _ _ => 1) 0 5 =
      generate_badfile (fun _ => false) (fun _ _ => 2) 0 9 :=
  (generate_badfile_zero_aborts (fun _ => true) (fun _ => false)
    (fun _ _ => 1) (fun _ _ => 2) 0 5 9).2 rfl

theorem badfile_loop_step (fs : FsState) (rngs : Nat → Nat → Nat)
    (length k fuel : Nat) :
    badfile_loop fs rngs length k (fuel + 1) =
      if metadata_is_err fs (generate_alphanumeric (rngs k) length) then
        some (generate_alphanumeric (rngs k) length)
      else badfile_loop fs rngs length (k + 1) fuel := rfl

theorem badfile_loop_first_success (fs : FsState) (rngs : Nat → Nat → Nat)
    (length : Nat) :
    ∀ n k,
      (∀ j, j < n → metadata_is_err fs (generate_alphanumeric (rngs (k + j)) length) = false) →
      metadata_is_err fs (generate_alphanumeric (rngs (k + n)) length) = true →
      badfile_loop fs rngs length k n = none ∧
      badfile_loop fs rngs length k (n + 1) =
        some (generate_alphanumeric (rngs (k + n)) length) := by
  intro n
  induction n with
  | zero =>
    intro k _ hfree
    have hfree0 : metadata_is_err fs (generate_alphanumeric (rngs k) length) = true := by
      simpa using hfree
    refine ⟨rfl, ?_⟩
    rw [badfile_loop_step, if_pos hfree0]
    simp
  | succ n ih =>
    intro k hcoll hfree
    have hk : metadata_is_err fs (generate_alphanumeric (rngs k) length) = false := by
      have h0 := hcoll 0 (Nat.succ_pos n)
      simpa using h0
    have hcoll2 : ∀ j, j < n →
        metadata_is_err fs (generate_alphanumeric (rngs (k + 1 + j)) length) = false := by
      intro j hj
      have hx := hcoll (j + 1) (by omega)
      have harith : k + (j + 1) = k + 1 + j := by omega
      rwa [harith] at hx
    have hfree2 : metadata_is_err fs (generate_alphanumeric (rngs (k + 1 + n)) length) = true := by
      have harith : k + (n + 1) = k + 1 + n := by omega
      rwa [harith] at hfree
    obtain ⟨ih1, ih2⟩ := ih (k + 1) hcoll2 hfree2
    have harith2 : k + 1 + n = k + (n + 1) := by omega
    constructor
    · rw [badfile_loop_step, if_neg (by simp [hk])]
      exact ih1
    · rw [badfile_loop_step, if_neg (by simp [hk]), ih2, harith2]

/-- C7: the retry loop of `generate_badfile` has no iteration cap — if the
first free candidate appears at iteration `n`, for any `n`, the loop runs
exactly that far and returns it — and for every `length > 0` the call
terminates with a name whenever the random source eventually yields a
candidate whose existence check fails. -/
theorem generate_badfile_uncapped_terminates :
    (∀ (fs : FsState) (rngs : Nat → Nat → Nat) (length n : Nat), 0 < length →
      (∀ j, j < n → fs (generate_alphanumeric (rngs j) length) = true) →
      fs (generate_alphanumeric (rngs n) length) = false →
      generate_badfile fs rngs length n = Except.ok none ∧
      generate_badfile fs rngs length (n + 1) =
        Except.ok (some (generate_alphanumeric (rngs n) length))) ∧
    (∀ (fs : FsState) (rngs : Nat → Nat → Nat) (length : Nat), 0 < length →
      (∃ k, fs (generate_alphanumeric (rngs k) length) = false) →
      ∃ fuel s, generate_badfile fs rngs length fuel = Except.ok (some s) ∧
        fs s = false) := by
  constructor
  · intro fs rngs length n hlen hcoll hfree
    have hcoll2 : ∀ j, j < n →
        metadata_is_err fs (generate_alphanumeric (rngs (0 + j)) length) = false := by
      intro j hj
      simp [metadata_is_err, Nat.zero_add, hcoll j hj]
    have hfree2 : metadata_is_err fs (generate_alphanumeric (rngs (0 + n)) length) = true := by
      simp [metadata_is_err, Nat.zero_add, hfree]
    obtain ⟨h1, h2⟩ := badfile_loop_first_success fs rngs length n 0 hcoll2 hfree2
    rw [Nat.zero_add] at h2
    constructor
    · simp [generate_badfile, hlen, h1]
    · simp [generate_badfile, hlen, h2]
  · intro fs rngs length hlen hex
    have hfree : fs (generate_alphanumeric (rngs (Nat.find hex)) length) = false :=
      Nat.find_spec hex
    have hcoll : ∀ j, j < Nat.find hex →
        fs (generate_alphanumeric (rngs j) length) = true := by
      intro j hj
      have hmin := Nat.find_min hex hj
      revert hmin
      cases hfs : fs (generate_alphanumeric (rngs j) length) <;> simp
    have hcoll2 : ∀ j, j < Nat.find hex →
        metadata_is_err fs (generate_alphanumeric (rngs (0 + j)) length) = false := by
      intro j hj
      simp [metadata_is_err, Nat.zero_add, hcoll j hj]
    have hfree2 : metadata_is_err fs
        (generate_alphanumeric (rngs (0 + Nat.find hex)) length) = true := by
      simp [metadata_is_err, Nat.zero_add, hfree]
    obtain ⟨_, h2⟩ := badfile_loop_first_success fs rngs length (Nat.find hex) 0 hcoll2 hfree2
    rw [Nat.zero_add] at h2
    exact ⟨Nat.find hex + 1, generate_alphanumeric (rngs (Nat.find hex)) length,
      by simp [generate_badfile, hlen, h2], hfree⟩

/-- C7 witness: with an empty directory the call terminates at once with a
free name. -/
theorem generate_badfile_uncapped_terminates_witness :
    ∃ fuel s, generate_badfile (fun _ => false) (fun _ _ => 0) 8 fuel = Except.ok (some s) ∧
      (fun _ => false : FsState) s = false :=
  generate_badfile_uncapped_terminates.2 (fun _ => false) (fun _ _ => 0) 8 (by decide) ⟨0, rfl⟩

theorem badfile_loop_ops_step (fs : FsState) (rngs : Nat → Nat → Nat)
    (length k fuel : Nat) :
    badfile_loop_ops fs rngs length k (fuel + 1) =
      if metadata_is_err fs (generate_alphanumeric (rngs k) length) then
        (some (generate_alphanumeric (rngs k) length),
         [FsOp.metadataCheck (generate_alphanumeric (rngs k) length)])
      else
        ((badfile_loop_ops fs rngs length (k + 1) fuel).1,
         FsOp.metadataCheck (generate_alphanumeric (rngs k) length) ::
           (badfile_loop_ops fs rngs length (k + 1) fuel).2) := by
  rfl

/-- C8: `generate_badfile` leaves the filesystem unchanged — the retry
loop emits exactly one read-only `metadataCheck` per iteration (for that
iteration's candidate), no `create` or `remove` ever appears in its
operation trace, replaying the trace does not change the directory state,
and the instrumented loop computes the same result as the plain one. -/
theorem badfile_loop_fs_frame (fs : FsState) (rngs : Nat → Nat → Nat)
    (length : Nat) :
    ∀ fuel k,
      (badfile_loop_ops fs rngs length k fuel).1 = badfile_loop fs rngs length k fuel ∧
      (badfile_loop_ops fs rngs length k fuel).2.all FsOp.isMetadataCheck = true ∧
      (badfile_loop_ops fs rngs length k fuel).2.foldl apply_fs_op fs = fs ∧
      (badfile_loop_ops fs rngs length k fuel).2 =
        (List.range' k (badfile_loop_ops fs rngs length k fuel).2.length).map
          (fun j => FsOp.metadataCheck (generate_alphanumeric (rngs j) length)) := by
  intro fuel
  induction fuel with
  | zero =>
    intro k
    exact ⟨rfl, rfl, rfl, rfl⟩
  | succ n ih =>
    intro k
    obtain ⟨ih1, ih2, ih3, ih4⟩ := ih (k + 1)
    rw [badfile_loop_ops_step, badfile_loop_step]
    split
    · refine ⟨rfl, rfl, rfl, ?_⟩
      simp [List.range'_one]
    · refine ⟨ih1, ?_, ?_, ?_⟩
      · simpa [FsOp.isMetadataCheck] using ih2
      · simpa [apply_fs_op] using ih3
      · show FsOp.metadataCheck (generate_alphanumeric (rngs k) length) ::
            (badfile_loop_ops fs rngs length (k + 1) n).2 = _
        rw [List.length_cons, List.range'_succ, List.map_cons]
        exact congrArg _ ih4

theorem charset_ascii_utf8 :
    ∀ c ∈ ALPHANUMERIC_CHARSET, c.toNat < 128 ∧ c.utf8Size = 1 := by
  decide

theorem utf8ByteSizeGo_of_ascii (l : List Char) (h : ∀ c ∈ l, c.utf8Size = 1) :
    String.utf8ByteSize.go l = l.length := by
  induction l with
  | nil => rfl
  | cons c cs ih =>
    have hc : c.utf8Size = 1 := h c (List.mem_cons_self c cs)
    have hcs : ∀ x ∈ cs, x.utf8Size = 1 := fun x hx => h x (List.mem_cons_of_mem _ hx)
    show String.utf8ByteSize.go cs + c.utf8Size = cs.length + 1
    rw [hc, ih hcs]

theorem utf8ByteSize_eq_go (s : String) :
    s.utf8ByteSize = String.utf8ByteSize.go s.data := by
  cases s
  rfl

theorem generate_alphanumeric_ascii (rng : Nat → Nat) (length : Nat) :
    (generate_alphanumeric rng length).data.all (fun c => decide (c.toNat < 128)) = true ∧
    (generate_alphanumeric rng length).utf8ByteSize = length := by
  constructor
  · rw [List.all_eq_true]
    intro c hc
    have hmem := generate_alphanumeric_chars rng length c hc
    simpa using (charset_ascii_utf8 c hmem).1
  · have h1 : ∀ c ∈ (generate_alphanumeric rng length).data, c.utf8Size = 1 :=
      fun c hc => (charset_ascii_utf8 c (generate_alphanumeric_chars rng length c hc)).2
    rw [utf8ByteSize_eq_go, utf8ByteSizeGo_of_ascii _ h1]
    simp [generate_alphanumeric]

theorem generate_badfile_ok_name (fs : FsState) (rngs : Nat → Nat → Nat)
    (length fuel : Nat) (s : String)
    (h : generate_badfile fs rngs length fuel = Except.ok (some s)) :
    ∃ j, s = generate_alphanumeric (rngs j) length := by
  unfold generate_badfile at h
  split at h
  · have hloop : badfile_loop fs rngs length 0 fuel = some s := by
      injection h with h
    obtain ⟨⟨j, _, hs⟩, _⟩ := badfile_loop_some fs rngs length fuel 0 s hloop
    exact ⟨j, hs⟩
  · exact absurd h (by simp)

/-- C9: the strings returned by `generate_alphanumeric(length)` and
`generate_badfile(length)` consist only of ASCII characters, so their
UTF-8 byte length equals their character count `length`. -/
theorem generated_strings_ascii (rng : Nat → Nat) (fs : FsState)
    (rngs : Nat → Nat → Nat) (length fuel : Nat) :
    ((generate_alphanumeric rng length).data.all (fun c => decide (c.toNat < 128)) = true ∧
     (generate_alphanumeric rng length).utf8ByteSize =
       (generate_alphanumeric rng length).length ∧
     (generate_alphanumeric rng length).utf8ByteSize = length) ∧
    (∀ s, generate_badfile fs rngs length fuel = Except.ok (some s) →
      s.data.all (fun c => decide (c.toNat < 128)) = true ∧
      s.utf8ByteSize = s.length ∧ s.utf8ByteSize = length) := by
  constructor
  · obtain ⟨hall, hsize⟩ := generate_alphanumeric_ascii rng length
    exact ⟨hall, by rw [hsize, generate_alphanumeric_length], hsize⟩
  · intro s hs
    obtain ⟨j, rfl⟩ := generate_badfile_ok_name fs rngs length fuel s hs
    obtain ⟨hall, hsize⟩ := generate_alphanumeric_ascii (rngs j) length
    exact ⟨hall, by rw [hsize, generate_alphanumeric_length], hsize⟩

/-- C9 witness: a concrete returned name is ASCII with byte length equal
to its character count. -/
theorem generated_strings_ascii_witness :
    (generate_alphanumeric (fun _ => 0) 4).data.all (fun c => decide (c.toNat < 128)) = true ∧
    (generate_alphanumeric (fun _ => 0) 4).utf8ByteSize =
      (generate_alphanumeric (fun _ => 0) 4).length ∧
    (generate_alphanumeric (fun _ => 0) 4).utf8ByteSize = 4 :=
  (generated_strings_ascii (fun _ => 0) (fun _ => false) (fun _ _ => 0) 4 1).2
    (generate_alphanumeric (fun _ => 0) 4) rfl

/-- C5 witness: concrete lengths, including zero. -/
theorem generate_bytes_alphanumeric_exact_length_witness :
    (generate_bytes (fun _ => 7) 16).length = 16 ∧
    (generate_alphanumeric (fun _ => 7) 16).length = 16 ∧
    generate_bytes (fun _ => 7) 0 = [] ∧
    generate_alphanumeric (fun _ => 7) 0 = "" :=
  generate_bytes_alphanumeric_exact_length (fun _ => 7) 16

/-- C6 witness: a concrete generated string stays inside the alphabet. -/
theorem generate_alphanumeric_alphabet_witness :
    (generate_alphanumeric (fun _ => 9) 12).data.all isAlphanumChar = true ∧
    ALPHANUMERIC_CHARSET.length = 62 ∧
    ALPHANUMERIC_CHARSET.all (fun c => c.isUpper || c.isLower || c.isDigit) = true :=
  generate_alphanumeric_alphabet (fun _ => 9) 12

/-- C2 witness: a concrete empty range aborts and a concrete non-empty one
does not. -/
theorem generate_range_aborts_iff_empty_witness :
    ((∃ msg, generate_range 3 (SampleRangeI.exclusive 5 5) = Except.error msg) ↔
      (SampleRangeI.exclusive 5 5).is_empty = true) ∧
    ((∃ v, generate_range 3 (SampleRangeI.exclusive 5 5) = Except.ok v) ↔
      (SampleRangeI.exclusive 5 5).is_empty = false) :=
  generate_range_aborts_iff_empty 3 (SampleRangeI.exclusive 5 5)

/-- C10 witness: a concrete singleton inclusive range returns its only
element. -/
theorem generate_range_singleton_inclusive_witness :
    generate_range 4 (SampleRangeI.inclusive 9 9) = Except.ok 9 :=
  generate_range_singleton_inclusive 4 9

/-- C8 witness: a concrete run of the instrumented loop. -/
theorem badfile_loop_fs_frame_witness :
    (badfile_loop_ops (fun _ => true) (fun _ _ => 3) 5 0 2).1 =
      badfile_loop (fun _ => true) (fun _ _ => 3) 5 0 2 ∧
    (badfile_loop_ops (fun _ => true) (fun _ _ => 3) 5 0 2).2.all FsOp.isMetadataCheck = true ∧
    (badfile_loop_ops (fun _ => true) (fun _ _ => 3) 5 0 2).2.foldl apply_fs_op
      (fun _ => true) = (fun _ => true : FsState) ∧
    (badfile_loop_ops (fun _ => true) (fun _ _ => 3) 5 0 2).2 =
      (List.range' 0 (badfile_loop_ops (fun _ => true) (fun _ _ => 3) 5 0 2).2.length).map
        (fun j => FsOp.metadataCheck (generate_alphanumeric ((fun _ _ => 3) j) 5)) :=
  badfile_loop_fs_frame (fun _ => true) (fun _ _ => 3) 5 2 0
